import Mathlib

/-!
Shallow embedding of the Placement-Tracking-system data/access layer:
the ORM models and Pydantic schemas of `src/app/database_utls.py`, the
access operations of `src/app/app-utls.py`, and the request handlers of
`src/app/placement_api.py`.

Modelling conventions:
* ORM rows are Lean structures; the relational tables are lists inside a
  `DB` state value.
* SQLite auto-increment identifiers are modelled with explicit next-id
  counters in the state; a freshly committed row receives the current
  counter value and the counter advances.
* Floating point columns (`package_lpa`, `match_score`) are only ever
  stored and echoed back, never used in arithmetic, so they are modelled
  as rationals.
* The bcrypt hashing of passlib (`pwd_context.hash` / `pwd_context.verify`)
  is an external library, not repository code; the operations that delegate
  to it (`create_user`) are parameterized by the hash function.
* Every access operation is written in state-passing style: it returns its
  result together with the database state after the call, so that frame
  properties ("reads do not write") are statable.
* The source commits writes inside a try/except; whether the commit
  succeeds is modelled by an explicit `commitOk` boolean parameter where
  the source handles the failure (`create_user`).
* A raised `HTTPException(status_code, detail)` and a re-raised persistence
  exception are modelled by the `ApiError` error type of an `Except` result.
-/

/-- ORM model `User` (database_utls.py, lines 10-22): id, full_name, email,
hashed_password, account_type (a plain string column), is_active. -/
structure UserRow where
  id : Nat
  full_name : String
  email : String
  hashed_password : String
  account_type : String
  is_active : Bool
  deriving DecidableEq, Repr

/-- ORM model `Company` (database_utls.py, lines 24-32). -/
structure CompanyRow where
  id : Nat
  name : String
  industry : String
  location : String
  deriving DecidableEq, Repr

/-- ORM model `Drive` (database_utls.py, lines 34-44); `deadline` is a
datetime column, modelled as an abstract integer timestamp. -/
structure DriveRow where
  id : Nat
  company_id : Nat
  role : String
  package_lpa : ℚ
  deadline : Int
  deriving DecidableEq, Repr

/-- The relational database state: the users, companies and drives tables
plus the auto-increment counters for the two tables the service inserts
into. (The applications table is never touched by any specified
operation and is omitted.) -/
structure DB where
  users : List UserRow
  companies : List CompanyRow
  drives : List DriveRow
  nextUserId : Nat
  nextDriveId : Nat
  deriving DecidableEq, Repr

/-- Pydantic input schema `UserCreate` (database_utls.py, lines 61-65). -/
structure UserCreate where
  full_name : String
  email : String
  password : String
  account_type : String
  deriving DecidableEq, Repr

/-- Pydantic output schema `UserSchema` (database_utls.py, lines 67-74):
id, full_name, email, account_type — it declares NO password and NO
hashed_password field. -/
structure UserSchema where
  id : Nat
  full_name : String
  email : String
  account_type : String
  deriving DecidableEq, Repr

/-- Pydantic input schema `DriveBase` (database_utls.py, lines 87-91). -/
structure DriveBase where
  company_id : Nat
  role : String
  package_lpa : ℚ
  deadline : Int
  deriving DecidableEq, Repr

/-- Serialization of an ORM `User` row through `UserSchema`
(`from_attributes = True`): only id, full_name, email and account_type are
read back; the hashed password is not part of the schema. -/
def UserRow.toUserSchema (u : UserRow) : UserSchema :=
  { id := u.id, full_name := u.full_name, email := u.email,
    account_type := u.account_type }

/-- Errors surfaced by the handlers: a raised `HTTPException`, the
re-raised exception of a failed commit inside `create_user`
(app-utls.py, lines 37-43), and a Python `AttributeError` raised by an
attribute access on an object without that attribute. -/
inductive ApiError where
  | httpExc (status_code : Nat) (detail : String)
  | persistenceFailure
  | attributeError (attr : String)
  deriving DecidableEq, Repr

/-- `HTTPException(400, "Email already registered")` raised by
`register_user` (placement_api.py, lines 105-109); this is the Conflict
case of the spec's error taxonomy (duplicate unique email on create). -/
def emailConflictError : ApiError := .httpExc 400 "Email already registered"

/-- `HTTPException(401, "Invalid credentials")` raised by `login_user`
(placement_api.py, lines 120-124). -/
def invalidCredentialsError : ApiError := .httpExc 401 "Invalid credentials"

/-- `HTTPException(404, "Company ID not found.")` raised by `create_drive`
(placement_api.py, lines 146-147). -/
def companyNotFoundError : ApiError := .httpExc 404 "Company ID not found."

/-- `HTTPException(404, "No drives found for this company.")` raised by
`get_drives_by_company` (placement_api.py, lines 163-164). -/
def noDrivesError : ApiError := .httpExc 404 "No drives found for this company."

/-- `get_user_by_email` (app-utls.py, lines 17-19):
`db.query(User).filter(User.email == email).first()` — the first users row
with this exact email, or absent; a pure query, the state is returned
unchanged. -/
def get_user_by_email (db : DB) (email : String) : Option UserRow × DB :=
  (db.users.find? (fun u => u.email == email), db)

/-- `get_drives_by_company_id` (app-utls.py, lines 46-48):
`db.query(Drive).filter(Drive.company_id == company_id).all()` — all drive
rows for the company; a pure query, the state is returned unchanged. -/
def get_drives_by_company_id (db : DB) (company_id : Nat) :
    List DriveRow × DB :=
  (db.drives.filter (fun d => d.company_id == company_id), db)

/-- The `User(...)` row constructed by `create_user` (app-utls.py,
lines 25-30) as persisted with the auto-assigned identifier filled in by
`db.refresh`. -/
def UserCreate.toRow (user : UserCreate) (hashFn : String → String)
    (i : Nat) : UserRow :=
  { id := i, full_name := user.full_name, email := user.email,
    hashed_password := hashFn user.password,
    account_type := user.account_type, is_active := true }

/-- `create_user` (app-utls.py, lines 21-43): hashes the password with the
passlib context (`hashFn`), constructs the User row, then
add/commit/refresh inside try/except. `commitOk` models whether the
persistence step succeeds: on success the row is appended and returned
with its new identifier; on any failure the session is rolled back (state
unchanged) and the exception is re-raised. -/
def create_user (hashFn : String → String) (commitOk : Bool) (db : DB)
    (user : UserCreate) : Except ApiError UserRow × DB :=
  let db_user := user.toRow hashFn db.nextUserId
  if commitOk then
    (Except.ok db_user,
      { db with users := db.users ++ [db_user],
                nextUserId := db.nextUserId + 1 })
  else
    (Except.error ApiError.persistenceFailure, db)

/-- `register_user` handler (placement_api.py, lines 101-110): looks the
email up first; if a user exists it raises HTTP 400 "Email already
registered" before any write; otherwise it delegates to `create_user`. -/
def register_user (hashFn : String → String) (commitOk : Bool) (db : DB)
    (user : UserCreate) : Except ApiError UserRow × DB :=
  match (get_user_by_email db user.email).1 with
  | some _ => (Except.error emailConflictError, db)
  | none => create_user hashFn commitOk db user

/-- Success payload of `login_user` (placement_api.py, lines 131-136). -/
structure LoginResponse where
  message : String
  user_id : Nat
  account_type : String
  token : String
  deriving DecidableEq, Repr

/-- `login_user` handler (placement_api.py, lines 112-136). Its input is
declared as `UserSchema`, which has NO `password` field. The guard is
`if not db_user or not verify_password(user_data.password, ...)`: when the
email matches no user, the short-circuit raises HTTP 401 "Invalid
credentials"; when a user IS found, evaluating `user_data.password`
raises `AttributeError` (the attribute does not exist on `UserSchema`),
so `verify_password` is never reached and the success branch is
unreachable. -/
def login_user (db : DB) (user_data : UserSchema) :
    Except ApiError LoginResponse × DB :=
  match (get_user_by_email db user_data.email).1 with
  | none => (Except.error invalidCredentialsError, db)
  | some _ => (Except.error (ApiError.attributeError "password"), db)

/-- The `Drive(**drive.model_dump())` row of `create_drive`
(placement_api.py, line 150) as persisted with the auto-assigned
identifier filled in by `db.refresh`. -/
def DriveBase.toRow (drive : DriveBase) (i : Nat) : DriveRow :=
  { id := i, company_id := drive.company_id, role := drive.role,
    package_lpa := drive.package_lpa, deadline := drive.deadline }

/-- `create_drive` handler (placement_api.py, lines 140-155): queries the
company by id and raises HTTP 404 "Company ID not found." when absent;
otherwise adds the drive, commits, refreshes, and returns the result of
re-querying the drives table by the new id (`.first()`, hence an
Option). -/
def create_drive (db : DB) (drive : DriveBase) :
    Except ApiError (Option DriveRow) × DB :=
  match db.companies.find? (fun c => c.id == drive.company_id) with
  | none => (Except.error companyNotFoundError, db)
  | some _ =>
    let db_drive := drive.toRow db.nextDriveId
    let db1 : DB :=
      { db with drives := db.drives ++ [db_drive],
                nextDriveId := db.nextDriveId + 1 }
    (Except.ok (db1.drives.find? (fun d => d.id == db_drive.id)), db1)

/-- `get_drives_by_company` handler (placement_api.py, lines 158-165):
runs the same company-id filter query inline, and raises HTTP 404
"No drives found for this company." when the resulting list is empty
(Python `if not drives`); otherwise returns the list. -/
def get_drives_by_company (db : DB) (company_id : Nat) :
    Except ApiError (List DriveRow) × DB :=
  let drives := db.drives.filter (fun d => d.company_id == company_id)
  if drives.isEmpty then (Except.error noDrivesError, db)
  else (Except.ok drives, db)

/-- One canned record of the recommendation stub. -/
structure Recommendation where
  role : String
  match_score : ℚ
  deriving DecidableEq, Repr

/-- `get_recommendations` (app-utls.py, lines 50-55): the simulated
recommendation stub; returns a hard-coded two-element list and ignores
its argument. -/
def get_recommendations (user_id : Nat) : List Recommendation :=
  [ { role := "Simulated Data Analyst", match_score := 0.85 },
    { role := "Simulated Software Engineer", match_score := 0.79 } ]

/-- Response payload of the recommendations endpoint. -/
structure RecommendationResponse where
  user_id : Nat
  recommendations : List Recommendation
  deriving DecidableEq, Repr

/-- `get_user_recommendations` handler (placement_api.py, lines 169-174):
wraps the stub output together with the requested user_id. -/
def get_user_recommendations (user_id : Nat) : RecommendationResponse :=
  { user_id := user_id, recommendations := get_recommendations user_id }

/-! Concrete sample states used by witnesses and counterexamples. -/

/-- A database with all tables empty and fresh counters. -/
def emptyDB : DB :=
  { users := [], companies := [], drives := [],
    nextUserId := 1, nextDriveId := 1 }

/-- A sample persisted user row. -/
def aliceRow : UserRow :=
  { id := 1, full_name := "Alice", email := "alice@example.com",
    hashed_password := "hpw", account_type := "student", is_active := true }

/-- A database holding exactly the one user `aliceRow`. -/
def dbAlice : DB :=
  { users := [aliceRow], companies := [], drives := [],
    nextUserId := 2, nextDriveId := 1 }

/-- The sample company of the startup bootstrap data
(placement_api.py, line 198). -/
def techCorp : CompanyRow :=
  { id := 1, name := "TechCorp Solutions", industry := "IT",
    location := "Pune" }

/-- A database holding exactly the one company `techCorp`. -/
def dbCompany : DB :=
  { users := [], companies := [techCorp], drives := [],
    nextUserId := 1, nextDriveId := 1 }

/-- The sample drive input of the startup bootstrap data
(placement_api.py, line 203). -/
def internDrive : DriveBase :=
  { company_id := 1, role := "Software Intern", package_lpa := 6.5,
    deadline := 20251101 }

/-- A registration input re-using Alice's email. -/
def uAlice : UserCreate :=
  { full_name := "Alice", email := "alice@example.com", password := "pw",
    account_type := "student" }

/-- A registration input whose account_type is none of the three
canonical tags. -/
def uSuper : UserCreate :=
  { full_name := "Eve", email := "eve@example.com", password := "pw",
    account_type := "superuser" }

/-! Helper lemmas. -/

/-- Searching an appended list skips a first part on which the predicate
is everywhere false. -/
theorem find_skip_left {α : Type} (p : α → Bool) (l1 l2 : List α)
    (h : ∀ x ∈ l1, p x = false) :
    List.find? p (l1 ++ l2) = List.find? p l2 := by
  rw [List.find?_append]
  have hnone : List.find? p l1 = none :=
    List.find?_eq_none.mpr (fun x hx => by simp [h x hx])
  rw [hnone, Option.none_or]

/-! Claim theorems. -/

/-- C1, counterexample: on a database with no drives at all, the exposed
handler `get_drives_by_company` for company 5 fails with HTTP 404 instead
of returning an empty sequence as a success result, contradicting the
claim that the exposed list-drives operation for a company with zero
drives does not fail. -/
theorem C1_counterexample :
    (get_drives_by_company emptyDB 5).1 = Except.error noDrivesError := by
  rfl

/-- C1, amended: the access-layer function `get_drives_by_company_id`
returns an empty list as a success result (and leaves the state
unchanged) for a company with zero drives, but the exposed handler
`get_drives_by_company` raises HTTP 404 "No drives found for this
company." in exactly that case. -/
theorem C1_list_drives_empty (db : DB) (company_id : Nat)
    (h : ∀ d ∈ db.drives, d.company_id ≠ company_id) :
    get_drives_by_company_id db company_id = ([], db) ∧
    get_drives_by_company db company_id = (Except.error noDrivesError, db) := by
  have hfilter : db.drives.filter (fun d => d.company_id == company_id) = [] :=
    List.filter_eq_nil_iff.mpr (fun d hd => by simp [h d hd])
  constructor
  · simp [get_drives_by_company_id, hfilter]
  · simp [get_drives_by_company, hfilter]

/-- C1, witness for the amended theorem at a concrete input. -/
theorem C1_list_drives_empty_witness :
    get_drives_by_company_id emptyDB 7 = ([], emptyDB) ∧
    get_drives_by_company emptyDB 7 = (Except.error noDrivesError, emptyDB) :=
  C1_list_drives_empty emptyDB 7 (by intro d hd; simp [emptyDB] at hd)

/-- C4: for every hash function, state and registration input, if the
persistence step of `create_user` fails then the operation returns the
re-raised error and the state is rolled back unchanged (no partial write,
no partially-constructed user); if it succeeds, the operation returns the
created user row carrying the newly assigned identifier and the state
gains exactly that row. -/
theorem C4_create_user_rollback (hashFn : String → String) (db : DB)
    (u : UserCreate) :
    create_user hashFn false db u
        = (Except.error ApiError.persistenceFailure, db) ∧
    (create_user hashFn true db u).1
        = Except.ok (u.toRow hashFn db.nextUserId) ∧
    (u.toRow hashFn db.nextUserId).id = db.nextUserId ∧
    (create_user hashFn true db u).2
        = { db with users := db.users ++ [u.toRow hashFn db.nextUserId],
                    nextUserId := db.nextUserId + 1 } :=
  ⟨rfl, rfl, rfl, rfl⟩

/-- C9: the recommendation stub is a fixed deterministic function — any
two user ids receive the same canned list, the list is exactly the two
hard-coded role/match_score records, and the exposed handler only wraps
that list with the requested user id. -/
theorem C9_recommendations_fixed :
    (∀ u1 u2 : Nat, get_recommendations u1 = get_recommendations u2) ∧
    (∀ u : Nat, get_recommendations u =
      [ { role := "Simulated Data Analyst", match_score := 0.85 },
        { role := "Simulated Software Engineer", match_score := 0.79 } ]) ∧
    (∀ u : Nat, (get_user_recommendations u).recommendations
          = get_recommendations u ∧
        (get_user_recommendations u).user_id = u) :=
  ⟨fun _ _ => rfl, fun _ => rfl, fun _ => ⟨rfl, rfl⟩⟩

/-- C10: the read operations `get_user_by_email` and
`get_drives_by_company_id` never modify the database state — for every
starting state and argument, the state component of the result equals the
input state (every table and counter unchanged). -/
theorem C10_reads_pure (db : DB) (email : String) (company_id : Nat) :
    (get_user_by_email db email).2 = db ∧
    (get_drives_by_company_id db company_id).2 = db :=
  ⟨rfl, rfl⟩

/-- C2: for every hash function, state and registration input — if the
users table holds exactly one row with the requested email, `register_user`
fails with the duplicate-email Conflict error regardless of whether the
persistence step could commit (the check happens before any write), the
state is unchanged, and the table still holds exactly one row with that
email; if the email is fresh (zero rows), the registration succeeds and
the table then holds exactly one row with that email. -/
theorem C2_register_duplicate_email (hashFn : String → String) (db : DB)
    (u : UserCreate) :
    (db.users.countP (fun r => r.email == u.email) = 1 →
      ∀ commitOk : Bool,
        register_user hashFn commitOk db u
            = (Except.error emailConflictError, db) ∧
        ((register_user hashFn commitOk db u).2).users.countP
            (fun r => r.email == u.email) = 1) ∧
    (db.users.countP (fun r => r.email == u.email) = 0 →
      (register_user hashFn true db u).1
          = Except.ok (u.toRow hashFn db.nextUserId) ∧
      ((register_user hashFn true db u).2).users.countP
          (fun r => r.email == u.email) = 1) := by
  constructor
  · intro hone commitOk
    have hpos : 0 < db.users.countP (fun r => r.email == u.email) := by omega
    have hsome : (db.users.find? (fun r => r.email == u.email)).isSome := by
      rw [List.find?_isSome]
      obtain ⟨a, ha, hpa⟩ := List.countP_pos_iff.mp hpos
      exact ⟨a, ha, hpa⟩
    obtain ⟨w, hw⟩ := Option.isSome_iff_exists.mp hsome
    have hreg : register_user hashFn commitOk db u
        = (Except.error emailConflictError, db) := by
      simp [register_user, get_user_by_email, hw]
    exact ⟨hreg, by rw [hreg]; exact hone⟩
  · intro hzero
    have hnone : db.users.find? (fun r => r.email == u.email) = none := by
      rw [List.find?_eq_none]
      intro x hx
      have := List.countP_eq_zero.mp hzero x hx
      simpa using this
    have hreg : register_user hashFn true db u = create_user hashFn true db u := by
      simp [register_user, get_user_by_email, hnone]
    constructor
    · rw [hreg]; rfl
    · rw [hreg]
      show (db.users ++ [u.toRow hashFn db.nextUserId]).countP
          (fun r => r.email == u.email) = 1
      rw [List.countP_append, hzero]
      simp [UserCreate.toRow]

/-- C2, witness: on a table holding exactly Alice's row, re-registering
Alice's email fails with the Conflict error and leaves one row; on the
empty table, the first registration with that email succeeds and leaves
one row. -/
theorem C2_register_duplicate_email_witness :
    (register_user (fun s => s) false dbAlice uAlice
        = (Except.error emailConflictError, dbAlice) ∧
      ((register_user (fun s => s) false dbAlice uAlice).2).users.countP
          (fun r => r.email == uAlice.email) = 1) ∧
    ((register_user (fun s => s) true emptyDB uAlice).1
        = Except.ok (uAlice.toRow (fun s => s) emptyDB.nextUserId) ∧
      ((register_user (fun s => s) true emptyDB uAlice).2).users.countP
          (fun r => r.email == uAlice.email) = 1) :=
  ⟨(C2_register_duplicate_email (fun s => s) dbAlice uAlice).1 (by decide) false,
   (C2_register_duplicate_email (fun s => s) emptyDB uAlice).2 (by decide)⟩

/-- C3: for every state whose drive identifiers are below the
auto-increment counter and every drive input — if the referenced company
is absent, `create_drive` fails with the 404 NotFound error and the whole
state (in particular the drives table) is unchanged; if the referenced
company exists, the drive is inserted, and the handler returns the
persisted drive with the newly assigned identifier populated. -/
theorem C3_create_drive (db : DB) (drive : DriveBase)
    (hwf : ∀ d ∈ db.drives, d.id < db.nextDriveId) :
    (db.companies.find? (fun c => c.id == drive.company_id) = none →
      create_drive db drive = (Except.error companyNotFoundError, db)) ∧
    (∀ c : CompanyRow,
      db.companies.find? (fun c0 => c0.id == drive.company_id) = some c →
      (create_drive db drive).1
          = Except.ok (some (drive.toRow db.nextDriveId)) ∧
      (drive.toRow db.nextDriveId).id = db.nextDriveId ∧
      ((create_drive db drive).2).drives
          = db.drives ++ [drive.toRow db.nextDriveId]) := by
  constructor
  · intro hnone
    simp [create_drive, hnone]
  · intro c hc
    have hskip : ∀ x ∈ db.drives,
        (fun d => d.id == db.nextDriveId) x = false := by
      intro x hx
      simp [Nat.ne_of_lt (hwf x hx)]
    have hfind : (db.drives ++ [drive.toRow db.nextDriveId]).find?
          (fun d => d.id == db.nextDriveId)
        = some (drive.toRow db.nextDriveId) := by
      rw [find_skip_left _ _ _ hskip]
      simp [DriveBase.toRow]
    refine ⟨?_, rfl, ?_⟩
    · simp [create_drive, hc, DriveBase.toRow] at hfind ⊢
      exact hfind
    · simp [create_drive, hc]

/-- C3, witness: on the bootstrap database holding only the company
TechCorp Solutions, creating the sample intern drive succeeds and
persists it with identifier 1. -/
theorem C3_create_drive_witness :
    (create_drive dbCompany internDrive).1
        = Except.ok (some (internDrive.toRow dbCompany.nextDriveId)) ∧
    (internDrive.toRow dbCompany.nextDriveId).id = dbCompany.nextDriveId ∧
    ((create_drive dbCompany internDrive).2).drives
        = dbCompany.drives ++ [internDrive.toRow dbCompany.nextDriveId] :=
  (C3_create_drive dbCompany internDrive (by decide)).2 techCorp (by decide)

/-- C5: for every hash function, state and registration input with a
fresh email — creating the user and immediately looking the email up
returns exactly the created row, whose full_name, email and account_type
equal the ones supplied at registration, and the `UserSchema` read-back
serialization is independent of the stored password hash (the hash is
excluded from the schema). -/
theorem C5_create_lookup_roundtrip (hashFn : String → String) (db : DB)
    (u : UserCreate) (hfresh : ∀ r ∈ db.users, r.email ≠ u.email) :
    (create_user hashFn true db u).1
        = Except.ok (u.toRow hashFn db.nextUserId) ∧
    (get_user_by_email ((create_user hashFn true db u).2) u.email).1
        = some (u.toRow hashFn db.nextUserId) ∧
    (u.toRow hashFn db.nextUserId).full_name = u.full_name ∧
    (u.toRow hashFn db.nextUserId).email = u.email ∧
    (u.toRow hashFn db.nextUserId).account_type = u.account_type ∧
    ∀ h1 h2 : String,
      UserRow.toUserSchema
          { u.toRow hashFn db.nextUserId with hashed_password := h1 }
        = UserRow.toUserSchema
          { u.toRow hashFn db.nextUserId with hashed_password := h2 } := by
  refine ⟨rfl, ?_, rfl, rfl, rfl, fun h1 h2 => rfl⟩
  have hskip : ∀ x ∈ db.users, (fun r => r.email == u.email) x = false := by
    intro x hx
    simp [hfresh x hx]
  show (db.users ++ [u.toRow hashFn db.nextUserId]).find?
      (fun r => r.email == u.email) = some (u.toRow hashFn db.nextUserId)
  rw [find_skip_left _ _ _ hskip]
  simp [UserCreate.toRow]

/-- C5, witness: the round trip at a concrete fresh registration on the
bootstrap company database. -/
theorem C5_create_lookup_roundtrip_witness :
    (create_user (fun s => s) true dbCompany uAlice).1
        = Except.ok (uAlice.toRow (fun s => s) dbCompany.nextUserId) ∧
    (get_user_by_email ((create_user (fun s => s) true dbCompany uAlice).2)
        uAlice.email).1
        = some (uAlice.toRow (fun s => s) dbCompany.nextUserId) ∧
    (uAlice.toRow (fun s => s) dbCompany.nextUserId).full_name
        = uAlice.full_name ∧
    (uAlice.toRow (fun s => s) dbCompany.nextUserId).email = uAlice.email ∧
    (uAlice.toRow (fun s => s) dbCompany.nextUserId).account_type
        = uAlice.account_type :=
  ⟨(C5_create_lookup_roundtrip (fun s => s) dbCompany uAlice (by decide)).1,
   (C5_create_lookup_roundtrip (fun s => s) dbCompany uAlice (by decide)).2.1,
   (C5_create_lookup_roundtrip (fun s => s) dbCompany uAlice (by decide)).2.2.1,
   (C5_create_lookup_roundtrip (fun s => s) dbCompany uAlice (by decide)).2.2.2.1,
   (C5_create_lookup_roundtrip (fun s => s) dbCompany uAlice (by decide)).2.2.2.2.1⟩

/-- C7, code-bug evaluation: on a database holding Alice's account, a
login attempt with an unknown email surfaces the 401 Invalid-credentials
error, while a login attempt with Alice's (existing) email surfaces the
AttributeError raised by `user_data.password` — `UserSchema` declares no
password field — and the two observable errors differ, so the two failure
cases ARE distinguishable, contrary to the claim. -/
theorem C7_login_distinguishable :
    (login_user dbAlice
        { id := 1, full_name := "Mallory", email := "mallory@example.com",
          account_type := "student" }).1
      = Except.error invalidCredentialsError ∧
    (login_user dbAlice
        { id := 1, full_name := "Mallory", email := "alice@example.com",
          account_type := "student" }).1
      = Except.error (ApiError.attributeError "password") ∧
    (Except.error (ApiError.attributeError "password")
        : Except ApiError LoginResponse)
      ≠ Except.error invalidCredentialsError := by
  refine ⟨rfl, rfl, fun h => ?_⟩
  have h2 : ApiError.attributeError "password" = invalidCredentialsError := by
    injection h
  exact absurd h2 (by decide)

/-- C8, counterexample: registering with account_type "superuser" on the
empty database succeeds and persists exactly that string, which is none
of student, tpo-admin, recruiter — so the three-value restriction on
persisted account types does not hold. -/
theorem C8_counterexample :
    ((register_user (fun s => s) true emptyDB uSuper).2).users
        = [{ id := 1, full_name := "Eve", email := "eve@example.com",
             hashed_password := "pw", account_type := "superuser",
             is_active := true }] ∧
    ("superuser" ≠ "student" ∧ "superuser" ≠ "tpo-admin" ∧
      "superuser" ≠ "recruiter") := by
  exact ⟨by decide, by decide⟩

/-- C8, amended: no create path validates the account-type tag — for
every hash function, state, and registration input with a fresh email,
`register_user` succeeds and persists the supplied account_type string
verbatim, whatever string it is. -/
theorem C8_account_type_unvalidated (hashFn : String → String) (db : DB)
    (u : UserCreate) (hfresh : ∀ r ∈ db.users, r.email ≠ u.email) :
    (register_user hashFn true db u).1
        = Except.ok (u.toRow hashFn db.nextUserId) ∧
    (u.toRow hashFn db.nextUserId).account_type = u.account_type ∧
    u.toRow hashFn db.nextUserId
        ∈ ((register_user hashFn true db u).2).users := by
  have hnone : db.users.find? (fun r => r.email == u.email) = none := by
    rw [List.find?_eq_none]
    intro x hx
    simp [hfresh x hx]
  have hreg : register_user hashFn true db u = create_user hashFn true db u := by
    simp [register_user, get_user_by_email, hnone]
  refine ⟨by rw [hreg]; rfl, rfl, ?_⟩
  rw [hreg]
  show u.toRow hashFn db.nextUserId
      ∈ db.users ++ [u.toRow hashFn db.nextUserId]
  simp

/-- C8, witness for the amended theorem: the concrete "superuser"
registration persisted verbatim. -/
theorem C8_account_type_unvalidated_witness :
    (register_user (fun s => s) true emptyDB uSuper).1
        = Except.ok (uSuper.toRow (fun s => s) emptyDB.nextUserId) ∧
    (uSuper.toRow (fun s => s) emptyDB.nextUserId).account_type
        = uSuper.account_type ∧
    uSuper.toRow (fun s => s) emptyDB.nextUserId
        ∈ ((register_user (fun s => s) true emptyDB uSuper).2).users :=
  C8_account_type_unvalidated (fun s => s) emptyDB uSuper (by decide)
